import Mathlib

/-!
Verification of the parameter-validation engine of the HDBSCAN web front-end.

The development shallowly embeds:
  * the Zod schema layer of `src/lib/validation.ts` (`basicParamsSchema`,
    `advancedParamsSchema`, `superAdvancedParamsSchema`, `getValidationSchema`,
    `validateClusteringParams`);
  * the dependency validator `useValidationDependencies` of
    `src/hooks/useLocalStorage.ts`;
  * the debounce utility of `src/lib/utils.ts` and the timer lifecycle of
    `src/hooks/useRealtimeValidation.ts`, as an explicit event-loop model;
  * the POST handler of `src/app/api/clusters/validate/route.ts`.

JavaScript numbers are modelled by `JsNum`: a finite double is represented by
the rational it denotes (every IEEE double is a rational, and the only numeric
operations the code performs on parameter values are order comparisons,
equality and `Number.isInteger`, all of which are exact and agree with the
rational ones on represented values), plus `Infinity`, `-Infinity` and `NaN`
with their IEEE comparison behaviour.
-/

namespace HdbscanWeb

/-- A JavaScript number: a finite value (as the exact rational it denotes),
positive or negative infinity, or NaN. -/
inductive JsNum where
  | fin (q : ℚ)
  | posInf
  | negInf
  | nan
deriving DecidableEq, Repr

namespace JsNum

/-- The JS `<` comparison on numbers (IEEE: any comparison with NaN is false). -/
def lt : JsNum → JsNum → Bool
  | nan, _ => false
  | _, nan => false
  | negInf, negInf => false
  | negInf, _ => true
  | _, negInf => false
  | posInf, _ => false
  | fin _, posInf => true
  | fin a, fin b => decide (a < b)

/-- The JS `>` comparison on numbers. -/
def gt (a b : JsNum) : Bool := lt b a

/-- The JS `===` comparison on numbers (NaN is not equal to anything). -/
def eqq : JsNum → JsNum → Bool
  | fin a, fin b => decide (a = b)
  | posInf, posInf => true
  | negInf, negInf => true
  | _, _ => false

/-- `Number.isInteger`: true exactly for finite values with no fractional
part (false on ±Infinity and NaN). -/
def isInteger : JsNum → Bool
  | fin q => decide (q.den = 1)
  | _ => false

/-- JS truthiness of a number: `0` and `NaN` are falsy, everything else
(including ±Infinity) is truthy. -/
def truthy : JsNum → Bool
  | fin q => decide (q ≠ 0)
  | nan => false
  | _ => true

/-- Rendering of a number into a template string (used only inside suggestion
texts; the claims never inspect these characters, and JS decimal formatting of
non-integers is approximated by the rational's own rendering). -/
def render : JsNum → String
  | fin q => if q.den = 1 then toString q.num else toString q
  | posInf => "Infinity"
  | negInf => "-Infinity"
  | nan => "NaN"

end JsNum

/-- JS truthiness of an optional number field (`undefined` is falsy). -/
def truthyN : Option JsNum → Bool
  | none => false
  | some v => v.truthy

/-- JS `>` on two optional number fields (`undefined` coerces to NaN, so any
comparison involving an absent field is false). -/
def gtN : Option JsNum → Option JsNum → Bool
  | some a, some b => a.gt b
  | _, _ => false

/-- JS `===` on two optional number fields. -/
def eqN : Option JsNum → Option JsNum → Bool
  | some a, some b => a.eqq b
  | _, _ => false

/-- JS `<` against a numeric literal for an optional field. -/
def ltC (v : Option JsNum) (c : ℚ) : Bool :=
  match v with
  | some a => a.lt (.fin c)
  | none => false

/-- JS `>` against a numeric literal for an optional field. -/
def gtC (v : Option JsNum) (c : ℚ) : Bool :=
  match v with
  | some a => a.gt (.fin c)
  | none => false

/-- A `Partial<ClusteringParameters>` object. Each field is optional
(`none` = absent/`undefined`). Numeric fields carry a `JsNum`; the enum
fields carry an arbitrary string (so that out-of-enum values such as
`"invalid_value"` are representable); boolean fields carry a `Bool`. -/
structure Params where
  minClusterSize : Option JsNum := none
  minSamples : Option JsNum := none
  metric : Option String := none
  alpha : Option JsNum := none
  clusterSelectionEpsilon : Option JsNum := none
  algorithm : Option String := none
  leafSize : Option JsNum := none
  approxMinSpanTree : Option Bool := none
  genMinSpanTree : Option Bool := none
  coreDistNJobs : Option JsNum := none
  clusterSelectionMethod : Option String := none
  allowSingleCluster : Option Bool := none
  predictionData : Option Bool := none
  matchReferenceImplementation : Option Bool := none
deriving DecidableEq, Repr

/-- The three configuration modes of `getValidationSchema`. -/
inductive Mode where
  | basic
  | advanced
  | superAdvanced
deriving DecidableEq, Repr

/-- Zod parse of one numeric field, following `ZodNumber._parse`:
an absent value is a `required_error` for required fields and accepted for
optional ones (also for fields with a numeric default); `NaN` has parsed type
`nan`, so it raises the `invalid_type_error` and aborts before the checks run;
any other number runs the full check chain (`.int()`, `.min`, `.max` in
declaration order), accumulating every failing check's message. The `.min`
check fires when `value < min`, the `.max` check when `value > max` (both
bounds inclusive). -/
def zodNumber (required : Bool) (reqMsg typeMsg : String)
    (intMsg : Option String) (minSpec maxSpec : Option (ℚ × String)) :
    Option JsNum → List String
  | none => if required then [reqMsg] else []
  | some .nan => [typeMsg]
  | some v =>
      (match intMsg with
       | some m => if v.isInteger then [] else [m]
       | none => []) ++
      (match minSpec with
       | some mv => if v.lt (.fin mv.1) then [mv.2] else []
       | none => []) ++
      (match maxSpec with
       | some mv => if v.gt (.fin mv.1) then [mv.2] else []
       | none => [])

/-- Zod parse of one enum field with a default: an absent value takes the
default (always a member, hence no error); a present string must be one of the
allowed members, otherwise the schema's `errorMap` message is produced. -/
def zodEnum (allowed : List String) (msg : String) : Option String → List String
  | none => []
  | some s => if allowed.contains s then [] else [msg]

/-- Errors of `minClusterSize` per `basicParamsSchema` (required, integer,
min 2, max 1000). -/
def minClusterSizeErrors : Option JsNum → List String :=
  zodNumber true
    "El tamaño mínimo de cluster es requerido"
    "El tamaño mínimo de cluster debe ser un número"
    (some "El tamaño mínimo de cluster debe ser un número entero")
    (some (2, "El tamaño mínimo de cluster debe ser al menos 2"))
    (some (1000, "El tamaño mínimo de cluster no puede exceder 1000"))

/-- Errors of `minSamples` per `basicParamsSchema` (optional, integer,
min 1, max 100). -/
def minSamplesErrors : Option JsNum → List String :=
  zodNumber false ""
    "El número mínimo de muestras debe ser un número"
    (some "El número mínimo de muestras debe ser un número entero")
    (some (1, "El número mínimo de muestras debe ser al menos 1"))
    (some (100, "El número mínimo de muestras no puede exceder 100"))

/-- Errors of `metric` per `advancedParamsSchema`. -/
def metricErrors : Option String → List String :=
  zodEnum ["euclidean", "manhattan", "cosine", "haversine"]
    "La métrica debe ser euclidean, manhattan, cosine o haversine"

/-- Errors of `alpha` per `advancedParamsSchema` (optional with default,
min 0.0, max 1.0, no integer check). -/
def alphaErrors : Option JsNum → List String :=
  zodNumber false ""
    "Alpha debe ser un número"
    none
    (some (0, "Alpha debe ser mayor o igual a 0.0"))
    (some (1, "Alpha no puede exceder 1.0"))

/-- Errors of `clusterSelectionEpsilon` per `advancedParamsSchema`
(optional with default, min 0.0, no maximum, no integer and no finiteness
check — Zod's `z.number()` accepts Infinity unless `.finite()` is used). -/
def clusterSelectionEpsilonErrors : Option JsNum → List String :=
  zodNumber false ""
    "Epsilon de selección de cluster debe ser un número"
    none
    (some (0, "Epsilon de selección de cluster debe ser mayor o igual a 0.0"))
    none

/-- Errors of `algorithm` per `superAdvancedParamsSchema`. -/
def algorithmErrors : Option String → List String :=
  zodEnum ["auto", "ball_tree", "kd_tree", "brute"]
    "El algoritmo debe ser auto, ball_tree, kd_tree o brute"

/-- Errors of `leafSize` per `superAdvancedParamsSchema` (optional with
default, integer, min 1). -/
def leafSizeErrors : Option JsNum → List String :=
  zodNumber false ""
    "El tamaño de hoja debe ser un número"
    (some "El tamaño de hoja debe ser un número entero")
    (some (1, "El tamaño de hoja debe ser al menos 1"))
    none

/-- Errors of `coreDistNJobs` per `superAdvancedParamsSchema` (optional with
default, integer, min 1). -/
def coreDistNJobsErrors : Option JsNum → List String :=
  zodNumber false ""
    "coreDistNJobs debe ser un número"
    (some "coreDistNJobs debe ser un número entero")
    (some (1, "coreDistNJobs debe ser al menos 1"))
    none

/-- Errors of `clusterSelectionMethod` per `superAdvancedParamsSchema`. -/
def clusterSelectionMethodErrors : Option String → List String :=
  zodEnum ["eom", "leaf"]
    "El método de selección de cluster debe ser eom o leaf"

/-- Per-field error lists of `basicParamsSchema`, in shape declaration order.
Fields not in the schema are stripped by Zod's default unknown-key policy and
contribute nothing. -/
def basicFieldErrors (p : Params) : List (String × List String) :=
  [("minClusterSize", minClusterSizeErrors p.minClusterSize),
   ("minSamples", minSamplesErrors p.minSamples)]

/-- Per-field error lists of `advancedParamsSchema` (extends basic). The
boolean fields of the type cannot be ill-typed in this embedding, so the
schemas' boolean entries never produce errors and are omitted from the lists.
-/
def advancedFieldErrors (p : Params) : List (String × List String) :=
  basicFieldErrors p ++
  [("metric", metricErrors p.metric),
   ("alpha", alphaErrors p.alpha),
   ("clusterSelectionEpsilon", clusterSelectionEpsilonErrors p.clusterSelectionEpsilon)]

/-- Per-field error lists of `superAdvancedParamsSchema` (extends advanced). -/
def superAdvancedFieldErrors (p : Params) : List (String × List String) :=
  advancedFieldErrors p ++
  [("algorithm", algorithmErrors p.algorithm),
   ("leafSize", leafSizeErrors p.leafSize),
   ("coreDistNJobs", coreDistNJobsErrors p.coreDistNJobs),
   ("clusterSelectionMethod", clusterSelectionMethodErrors p.clusterSelectionMethod)]

/-- `getValidationSchema`: per-field error lists of the schema selected by
the mode. -/
def schemaFieldErrors (mode : Mode) (p : Params) : List (String × List String) :=
  match mode with
  | .basic => basicFieldErrors p
  | .advanced => advancedFieldErrors p
  | .superAdvanced => superAdvancedFieldErrors p

/-- The `ValidationResult` record of `validation.ts`. `errors` is the
`flatten().fieldErrors` map, represented as an association list keyed by field
name, holding only fields with at least one error. -/
structure ValidationResult where
  isValid : Bool
  errors : List (String × List String)
  warnings : List String
  suggestions : List String
deriving DecidableEq, Repr

/-- `validateClusteringParams(params, mode)`: runs the mode's schema
(`safeParse`), turning the issues into the per-field error map, then appends
the orchestrator's own warnings, guarded by JS truthiness of the fields:
  * `minSamples` and `minClusterSize` truthy and `minSamples > minClusterSize`
    → warning plus a suggestion interpolating `minClusterSize`;
  * `minClusterSize` truthy and `< 5` → very-small warning;
  * `minClusterSize` truthy and `> 100` → very-large warning. -/
def validateClusteringParams (p : Params) (mode : Mode) : ValidationResult :=
  let fieldErrors := (schemaFieldErrors mode p).filter (fun e => !e.2.isEmpty)
  { isValid := fieldErrors.isEmpty
    errors := fieldErrors
    warnings :=
      (if truthyN p.minSamples && truthyN p.minClusterSize &&
          gtN p.minSamples p.minClusterSize then
        ["minSamples es mayor que minClusterSize. Esto puede generar más outliers."]
      else []) ++
      (if truthyN p.minClusterSize && ltC p.minClusterSize 5 then
        ["Un minClusterSize muy pequeño (< 5) puede generar clusters poco significativos."]
      else []) ++
      (if truthyN p.minClusterSize && gtC p.minClusterSize 100 then
        ["Un minClusterSize muy grande (> 100) puede generar pocos clusters o muchos outliers."]
      else [])
    suggestions :=
      if truthyN p.minSamples && truthyN p.minClusterSize &&
          gtN p.minSamples p.minClusterSize then
        ["Considera establecer minSamples a " ++
          (match p.minClusterSize with
           | some v => v.render
           | none => "undefined") ++ " o menos."]
      else [] }

/-- The `DependencyValidationResult` record of `useLocalStorage.ts`. -/
structure DependencyValidationResult where
  errors : List String
  warnings : List String
  suggestions : List String
  hasIssues : Bool
deriving DecidableEq, Repr

/-- The JS expression `Math.max(1, x - 1)` on a number `x` (subtraction and
`Math.max` follow IEEE: infinities are absorbing, NaN propagates). -/
def maxOneMinusOne : JsNum → JsNum
  | .fin q => .fin (max 1 (q - 1))
  | .posInf => .posInf
  | .negInf => .fin 1
  | .nan => .nan

/-- JS truthiness of an optional string field (`undefined` and `""` falsy). -/
def truthyS : Option String → Bool
  | none => false
  | some s => decide (s ≠ "")

/-- JS truthiness of an optional boolean field. -/
def truthyB : Option Bool → Bool
  | none => false
  | some b => b

/-- `useValidationDependencies(params)` of `useLocalStorage.ts`: the pure
cross-field dependency checks (the `useMemo` wrapper recomputes exactly this
value from the current `params`). Guards use `!== undefined` where the source
does, and truthiness where the source does (`params.algorithm`,
`params.allowSingleCluster`). Messages are pushed in source order. -/
def useValidationDependencies (p : Params) : DependencyValidationResult :=
  let msRule := p.minSamples.isSome && p.minClusterSize.isSome
  let msGt := gtN p.minSamples p.minClusterSize
  let msEq := eqN p.minSamples p.minClusterSize
  let epsRule := p.clusterSelectionEpsilon.isSome && gtC p.clusterSelectionEpsilon (1/2)
  let leafRule := truthyS p.algorithm &&
    !(p.algorithm == some "brute") && !(p.algorithm == some "auto") &&
    p.leafSize.isSome && ltC p.leafSize 10
  let coreRule := p.coreDistNJobs.isSome && gtC p.coreDistNJobs 8
  let singleRule := truthyB p.allowSingleCluster && p.minClusterSize.isSome &&
    gtC p.minClusterSize 50
  let errors :=
    if msRule && msGt then
      ["minSamples no puede ser mayor que minClusterSize. Esto generará solo outliers."]
    else []
  let warnings :=
    (if msRule && !msGt && msEq then
      ["minSamples es igual a minClusterSize. Esto puede generar clusters muy estrictos."]
    else []) ++
    (if epsRule then
      ["Un clusterSelectionEpsilon muy alto (> 0.5) puede fusionar clusters distintos."]
    else []) ++
    (match p.alpha with
     | some a =>
        if a.lt (.fin (1/10)) then
          ["Un alpha muy bajo (< 0.1) puede generar demasiados clusters pequeños."]
        else if a.gt (.fin (9/10)) then
          ["Un alpha muy alto (> 0.9) puede generar pocos clusters grandes."]
        else []
     | none => []) ++
    (if leafRule then
      ["Un leafSize muy pequeño (< 10) para " ++
        (match p.algorithm with | some s => s | none => "undefined") ++
        " puede ser ineficiente."]
    else []) ++
    (if coreRule then
      ["Un coreDistNJobs muy alto (> 8) puede no mejorar el rendimiento significativamente."]
    else []) ++
    (if singleRule then
      ["allowSingleCluster con minClusterSize alto puede generar un solo cluster grande."]
    else [])
  let suggestions :=
    (if msRule && msGt then
      ["Establece minSamples a " ++
        (match p.minClusterSize with | some v => v.render | none => "undefined") ++
        " o menos para permitir clusters."]
    else if msRule && msEq then
      ["Considera establecer minSamples a " ++
        (match p.minClusterSize with
         | some v => (maxOneMinusOne v).render
         | none => "NaN") ++
        " para mayor flexibilidad."]
    else []) ++
    (if epsRule then
      ["Considera usar un valor menor (0.0-0.3) para mayor granularidad de clusters."]
    else []) ++
    (if leafRule then
      ["Considera usar un leafSize de al menos 10 para mejor rendimiento."]
    else []) ++
    (if singleRule then
      ["Considera desactivar allowSingleCluster o reducir minClusterSize."]
    else [])
  { errors := errors
    warnings := warnings
    suggestions := suggestions
    hasIssues := decide (0 < errors.length) || decide (0 < warnings.length) }

/-!
## Timer model for `debounce` and `useRealtimeValidation`

`debounce(func, wait)` in `utils.ts` closes over a single mutable `timeout`
slot; each call does `clearTimeout(timeout)` and then arms a fresh timer.
We model the single-threaded event loop explicitly: a `slot` per debounce
instance holds the instance's pending timer (fire time and the parameter
snapshot captured by `performValidation`); timers whose fire time has been
reached fire (append to the invocation log) when the loop next runs.

In the hook, `performValidation` is a `useCallback` with dependency `params`,
and `debouncedValidate` is a `useMemo` with dependency `performValidation`:
a parameter update therefore creates a *new* debounce instance with a fresh
(empty) `timeout` slot, and the effect invokes that new instance once.
-/

/-- State of the event loop: one pending-timer slot per debounce instance
so far created (in creation order), and the log of fired validation passes
(fire time, parameter-snapshot id). -/
structure LoopState where
  slots : List (Option (ℕ × ℕ))
  log : List (ℕ × ℕ)
deriving DecidableEq, Repr

/-- Advance the event loop to time `t`: every armed timer due at or before
`t` fires (its validation pass runs and is logged) and its slot empties. -/
def fireDue (t : ℕ) (st : LoopState) : LoopState :=
  { slots := st.slots.map (fun s =>
      match s with
      | some ft => if ft.1 ≤ t then none else some ft
      | none => none)
    log := st.log ++ st.slots.filterMap (fun s =>
      match s with
      | some ft => if ft.1 ≤ t then some ft else none
      | none => none) }

/-- One call of the debounced function of instance `i` at time `t` with
parameter snapshot `pid`: `clearTimeout` discards whatever timer instance
`i` still had armed, then `setTimeout` arms a new one for `t + wait`.
This is the body of the closure returned by `debounce` in `utils.ts`. -/
def debounceCall (wait i t pid : ℕ) (st : LoopState) : LoopState :=
  { st with slots := st.slots.set i (some (t + wait, pid)) }

/-- Run of `useRealtimeValidation` (with `validateOnMount = false`) over a
time-ordered list of parameter updates `(t, pid)`: each update re-renders the
consumer with a new `params` reference, so `performValidation` and hence the
memoized `debouncedValidate` are recreated — the effect calls a *fresh*
debounce instance whose `clearTimeout` clears nothing. The final state still
holds every armed timer; `hookPendingAfter` exposes them. -/
def hookRunState (wait : ℕ) (updates : List (ℕ × ℕ)) : LoopState :=
  updates.foldl
    (fun st u =>
      let st1 := fireDue u.1 st
      let st2 : LoopState := { st1 with slots := st1.slots ++ [none] }
      debounceCall wait (st2.slots.length - 1) u.1 u.2 st2)
    ⟨[], []⟩

/-- Full log of validation passes of the hook once every remaining timer has
fired (no further updates arrive). -/
def hookRun (wait : ℕ) (updates : List (ℕ × ℕ)) : List (ℕ × ℕ) :=
  let st := hookRunState wait updates
  st.log ++ st.slots.filterMap id

/-- Run of a *single* debounce instance (the closure of `utils.ts` used as
designed, every call hitting the same `timeout` slot) over the same updates:
each call clears the previous pending timer — unless it already fired — and
re-arms. This is the trailing-edge behaviour the spec describes. -/
def singleDebounceRun (wait : ℕ) (updates : List (ℕ × ℕ)) : List (ℕ × ℕ) :=
  let st := updates.foldl
    (fun st u => debounceCall wait 0 u.1 u.2 (fireDue u.1 st))
    ⟨[none], []⟩
  st.log ++ st.slots.filterMap id

/-- Run of the hook followed by an unmount at time `u` (after which no timer
should update state): timers due before `u` fire while mounted; the effect's
cleanup function then runs — its body is empty (the source comment claims
"El debounce ya maneja el cleanup internamente", but `debounce` exposes no
cancel and the cleanup clears nothing) — and afterwards the remaining armed
timers still fire. Returns (passes while mounted, passes after disposal). -/
def hookRunUnmount (wait : ℕ) (updates : List (ℕ × ℕ)) (u : ℕ) :
    List (ℕ × ℕ) × List (ℕ × ℕ) :=
  let st := fireDue u (hookRunState wait updates)
  let cleaned := st.slots
  (st.log, cleaned.filterMap id)

/-!
## `performValidation` and the POST handler
-/

/-- Observable hook state touched by `performValidation`. -/
structure HookObsState where
  validationResult : ValidationResult
  isValidating : Bool
deriving DecidableEq, Repr

/-- The synthetic result produced by the `catch` branch of
`performValidation`. -/
def syntheticErrorResult : ValidationResult :=
  { isValid := false
    errors := [("_general", ["Error inesperado en la validación"])]
    warnings := []
    suggestions := [] }

/-- `performValidation` of `useRealtimeValidation.ts`. The underlying
validation call is passed as an `Except`: `.ok r` models a normal return of
`validateClusteringParams`, `.error e` models it throwing. The body sets
`isValidating` to `true`, runs the call, stores either the result or the
synthetic `_general` error result, resets `isValidating` in the `finally`
block, and returns the result — an exception never escapes. -/
def performValidation (outcome : Except String ValidationResult)
    (st : HookObsState) : ValidationResult × HookObsState :=
  let running : HookObsState := { st with isValidating := true }
  match outcome with
  | .ok r => (r, { running with validationResult := r, isValidating := false })
  | .error _ =>
      (syntheticErrorResult,
       { running with validationResult := syntheticErrorResult, isValidating := false })

/-- A parsed JSON/JS value as it can appear in the request body's `params`
or `mode` field. `obj` carries a parameter object; `undef` models an absent
field. -/
inductive JsVal where
  | undef
  | jsNull
  | num (n : JsNum)
  | bool (b : Bool)
  | str (s : String)
  | obj (p : Params)
deriving DecidableEq, Repr

/-- JS truthiness of a `JsVal` (objects are always truthy). -/
def JsVal.truthy : JsVal → Bool
  | .undef => false
  | .jsNull => false
  | .num n => n.truthy
  | .bool b => b
  | .str s => decide (s ≠ "")
  | .obj _ => true

/-- `['basic', 'advanced', 'super-advanced'].includes(mode)` combined with the
cast to the mode type: non-strings and other strings are not members. -/
def decodeMode : JsVal → Option Mode
  | .str "basic" => some .basic
  | .str "advanced" => some .advanced
  | .str "super-advanced" => some .superAdvanced
  | _ => none

/-- Observable outcome of the POST handler: HTTP status, the error code of a
failure payload, the validation result of a success payload, and whether
`validateClusteringParams` was invoked at all. -/
structure PostResult where
  status : ℕ
  errorCode : Option String
  data : Option ValidationResult
  invoked : Bool
deriving DecidableEq, Repr

/-- Zod `safeParse` of a non-object value against an object schema fails with
a single root-level `invalid_type` issue; `flatten().fieldErrors` is then
empty (the issue lands in `formErrors`), so `validateClusteringParams` yields
`isValid = false` with an empty error map. Its warning block reads properties
off the primitive, all `undefined`, hence no warnings or suggestions. -/
def validatePrimitive : ValidationResult :=
  { isValid := false, errors := [], warnings := [], suggestions := [] }

/-- The POST handler of `app/api/clusters/validate/route.ts`, applied to the
destructured body fields (`mode` defaults to `'basic'` when absent): a falsy
`params` short-circuits to 400 `VALIDATION_ERROR`; a `mode` outside the three
literals short-circuits to 400 `VALIDATION_ERROR`; otherwise
`validateClusteringParams` runs on the (cast, possibly non-object) `params`
and the handler answers 200 with the result. -/
def postValidate (bodyParams bodyMode : JsVal) : PostResult :=
  if !bodyParams.truthy then
    { status := 400, errorCode := some "VALIDATION_ERROR", data := none, invoked := false }
  else
    let m := if bodyMode == .undef then .str "basic" else bodyMode
    match decodeMode m with
    | none =>
        { status := 400, errorCode := some "VALIDATION_ERROR", data := none, invoked := false }
    | some mode =>
        let r := match bodyParams with
          | .obj p => validateClusteringParams p mode
          | _ => validatePrimitive
        { status := 200, errorCode := none, data := some r, invoked := true }

/-- Whether the result carries at least one error message under field `f`. -/
def hasFieldError (r : ValidationResult) (f : String) : Bool :=
  r.errors.any (fun e => e.1 == f)

/-- A list's `isEmpty` agrees with decidable equality to `[]`. -/
theorem isEmpty_eq_decide {α : Type} [DecidableEq α] (l : List α) :
    l.isEmpty = decide (l = []) := by
  cases l <;> simp

/-- The result's `isValid` flag is by construction the emptiness of its error
map. -/
theorem isValid_eq_errors_isEmpty (p : Params) (mode : Mode) :
    (validateClusteringParams p mode).isValid =
      (validateClusteringParams p mode).errors.isEmpty := rfl

/-- A schema field whose error list is nonempty appears in the result's error
map. -/
theorem error_entry_mem {p : Params} {mode : Mode} {f : String}
    {msgs : List String} (h : (f, msgs) ∈ schemaFieldErrors mode p)
    (hne : msgs.isEmpty = false) :
    (f, msgs) ∈ (validateClusteringParams p mode).errors := by
  refine List.mem_filter.mpr ⟨h, ?_⟩
  simp [hne]

/-- A member of the error map witnesses both the per-field flag and overall
invalidity. -/
theorem invalid_of_error_entry {p : Params} {mode : Mode} {f : String}
    {msgs : List String}
    (h : (f, msgs) ∈ (validateClusteringParams p mode).errors) :
    hasFieldError (validateClusteringParams p mode) f = true ∧
    (validateClusteringParams p mode).isValid = false := by
  constructor
  · exact List.any_eq_true.mpr ⟨(f, msgs), h, by simp⟩
  · rw [isValid_eq_errors_isEmpty]
    cases hl : (validateClusteringParams p mode).errors with
    | nil => rw [hl] at h; cases h
    | cons a l => simp [hl]

/-- Claim C1: validating `{minClusterSize}` with an integral value in
`[2, 1000]` and no other fields, in `basic` mode, yields `isValid = true` and
an empty error map (whatever warnings are also produced). -/
theorem c1_basic_range_valid (q : ℚ) (hden : q.den = 1) (h2 : 2 ≤ q)
    (h1000 : q ≤ 1000) :
    (validateClusteringParams { minClusterSize := some (.fin q) } .basic).isValid = true ∧
    (validateClusteringParams { minClusterSize := some (.fin q) } .basic).errors = [] := by
  have hlt : ¬ q < 2 := not_lt.mpr h2
  have hgt : ¬ 1000 < q := not_lt.mpr h1000
  simp [validateClusteringParams, schemaFieldErrors, basicFieldErrors,
    minClusterSizeErrors, minSamplesErrors, zodNumber, JsNum.isInteger,
    JsNum.lt, JsNum.gt, hden, hlt, hgt]

/-- Concrete instantiation of `c1_basic_range_valid` at `minClusterSize = 7`.
-/
theorem c1_basic_range_valid_witness :
    (7 : ℚ).den = 1 ∧ (2 : ℚ) ≤ 7 ∧ (7 : ℚ) ≤ 1000 ∧
    ((validateClusteringParams { minClusterSize := some (.fin 7) } .basic).isValid = true ∧
     (validateClusteringParams { minClusterSize := some (.fin 7) } .basic).errors = []) :=
  ⟨by norm_num, by norm_num, by norm_num,
   c1_basic_range_valid 7 (by norm_num) (by norm_num) (by norm_num)⟩

/-- Claim C2 (evaluation of the code at the failing schedule): three updates
at t = 0, 10, 20 ms with `debounceMs = 300` make the hook fire the validation
three times — at t = 300, 310, 320, one per intermediate parameter state —
because each update recreates the memoized debounce instance and the fresh
instance's `clearTimeout` cancels nothing; a single shared `debounce` closure
over the same updates would have fired exactly once, at t = 320, on the last
state, which is what the claim (and the hook's own documentation) promises. -/
theorem c2_hook_fires_once_per_update :
    hookRun 300 [(0, 0), (10, 1), (20, 2)] = [(300, 0), (310, 1), (320, 2)] ∧
    (hookRun 300 [(0, 0), (10, 1), (20, 2)]).length = 3 ∧
    singleDebounceRun 300 [(0, 0), (10, 1), (20, 2)] = [(320, 2)] := by
  decide

/-- Claim C7: whenever the underlying validation throws, `performValidation`
returns (and stores) the synthetic result with the single `_general` message
and clears `isValidating`; being a total function of the outcome, it
propagates no exception. -/
theorem c7_exception_caught_synthetic (st : HookObsState) (e : String) :
    performValidation (.error e) st =
      (syntheticErrorResult,
       { validationResult := syntheticErrorResult, isValidating := false }) ∧
    syntheticErrorResult =
      { isValid := false
        errors := [("_general", ["Error inesperado en la validación"])]
        warnings := []
        suggestions := [] } :=
  ⟨rfl, rfl⟩

/-- Claim C8 (evaluation of the code at the failing schedule): one update at
t = 0 with `debounceMs = 300` and an unmount at t = 100: no pass fires while
mounted, the effect cleanup cancels nothing (its body is empty), and the
stale timer still fires at t = 300, updating state after disposal. -/
theorem c8_stale_timer_fires_after_unmount :
    hookRunUnmount 300 [(0, 0)] 100 = ([], [(300, 0)]) ∧
    (hookRunUnmount 300 [(0, 0)] 100).2 ≠ [] := by
  decide

/-- Claim C3: for `{minClusterSize: 6, minSamples: 8}` the structural
validator stays valid while the dependency layer reports the
minSamples-exceeds-minClusterSize error together with a suggestion and
`hasIssues = true`; in general, whenever both fields are defined and
`minSamples > minClusterSize`, the dependency layer emits an error and a
suggestion, and the structural `isValid` remains exactly the emptiness of the
schema error map (the dependency channel never flips it). -/
theorem c3_structural_vs_dependency :
    ((validateClusteringParams
        { minClusterSize := some (.fin 6), minSamples := some (.fin 8) } .basic).isValid = true ∧
     (useValidationDependencies
        { minClusterSize := some (.fin 6), minSamples := some (.fin 8) }).errors ≠ [] ∧
     (useValidationDependencies
        { minClusterSize := some (.fin 6), minSamples := some (.fin 8) }).suggestions ≠ [] ∧
     (useValidationDependencies
        { minClusterSize := some (.fin 6), minSamples := some (.fin 8) }).hasIssues = true) ∧
    ∀ p : Params, p.minSamples.isSome = true → p.minClusterSize.isSome = true →
      gtN p.minSamples p.minClusterSize = true →
      (useValidationDependencies p).errors ≠ [] ∧
      (useValidationDependencies p).suggestions ≠ [] ∧
      (useValidationDependencies p).hasIssues = true ∧
      ∀ m : Mode, (validateClusteringParams p m).isValid =
        decide ((validateClusteringParams p m).errors = []) := by
  constructor
  · refine ⟨rfl, ?_, ?_, rfl⟩ <;> decide
  · intro p h1 h2 h3
    refine ⟨?_, ?_, ?_, ?_⟩
    · simp [useValidationDependencies, h1, h2, h3]
    · simp [useValidationDependencies, h1, h2, h3]
    · simp [useValidationDependencies, h1, h2, h3]
    · intro m
      rw [isValid_eq_errors_isEmpty, isEmpty_eq_decide]

/-- Concrete instantiation of the universally quantified part of
`c3_structural_vs_dependency` at `{minClusterSize: 6, minSamples: 8}`. -/
theorem c3_structural_vs_dependency_witness :
    (useValidationDependencies
       { minClusterSize := some (.fin 6), minSamples := some (.fin 8) }).errors ≠ [] ∧
    (useValidationDependencies
       { minClusterSize := some (.fin 6), minSamples := some (.fin 8) }).suggestions ≠ [] ∧
    (useValidationDependencies
       { minClusterSize := some (.fin 6), minSamples := some (.fin 8) }).hasIssues = true ∧
    (validateClusteringParams
       { minClusterSize := some (.fin 6), minSamples := some (.fin 8) } .basic).isValid =
      decide ((validateClusteringParams
       { minClusterSize := some (.fin 6), minSamples := some (.fin 8) } .basic).errors = []) := by
  have h := c3_structural_vs_dependency.2
    { minClusterSize := some (.fin 6), minSamples := some (.fin 8) }
    rfl rfl (by decide)
  exact ⟨h.1, h.2.1, h.2.2.1, h.2.2.2 .basic⟩

/-- Claim C4: an out-of-enum `algorithm` value on an object whose basic
fields validate raises no structural error in `basic` mode (fields outside
the active tier are ignored), but makes `super-advanced` mode invalid with an
error on the `algorithm` field. -/
theorem c4_tier_scoping (s : String)
    (hs : (["auto", "ball_tree", "kd_tree", "brute"] : List String).contains s = false)
    (p : Params) (halg : p.algorithm = some s)
    (hb : (validateClusteringParams p .basic).isValid = true) :
    (validateClusteringParams p .basic).isValid = true ∧
    hasFieldError (validateClusteringParams p .basic) "algorithm" = false ∧
    (validateClusteringParams p .superAdvanced).isValid = false ∧
    hasFieldError (validateClusteringParams p .superAdvanced) "algorithm" = true := by
  have hempty : (validateClusteringParams p .basic).errors.isEmpty = true := by
    rw [← isValid_eq_errors_isEmpty]; exact hb
  have herr : (validateClusteringParams p .basic).errors = [] := by
    cases hl : (validateClusteringParams p .basic).errors with
    | nil => rfl
    | cons a l => rw [hl] at hempty; simp at hempty
  have hs2 : ¬(s = "auto" ∨ s = "ball_tree" ∨ s = "kd_tree" ∨ s = "brute") := by
    simpa using hs
  have hmem : ("algorithm", ["El algoritmo debe ser auto, ball_tree, kd_tree o brute"]) ∈
      schemaFieldErrors .superAdvanced p := by
    simp [schemaFieldErrors, superAdvancedFieldErrors, advancedFieldErrors,
      basicFieldErrors, algorithmErrors, zodEnum, halg, hs2]
  have h2 := invalid_of_error_entry (error_entry_mem hmem (by simp))
  exact ⟨hb, by simp [hasFieldError, herr], h2.2, h2.1⟩

/-- Concrete instantiation of `c4_tier_scoping` at
`{minClusterSize: 6, algorithm: "invalid_value"}`. -/
theorem c4_tier_scoping_witness :
    (validateClusteringParams
       { minClusterSize := some (.fin 6), algorithm := some "invalid_value" } .basic).isValid = true ∧
    hasFieldError (validateClusteringParams
       { minClusterSize := some (.fin 6), algorithm := some "invalid_value" } .basic)
      "algorithm" = false ∧
    (validateClusteringParams
       { minClusterSize := some (.fin 6), algorithm := some "invalid_value" } .superAdvanced).isValid = false ∧
    hasFieldError (validateClusteringParams
       { minClusterSize := some (.fin 6), algorithm := some "invalid_value" } .superAdvanced)
      "algorithm" = true :=
  c4_tier_scoping "invalid_value" (by decide)
    { minClusterSize := some (.fin 6), algorithm := some "invalid_value" }
    rfl (by decide)

/-- Claim C5, counterexample: `{minClusterSize: 10, clusterSelectionEpsilon:
Infinity}` in `advanced` mode validates successfully — `z.number()` without
`.finite()` accepts Infinity and the field has no upper bound — refuting the
claim that this input yields `isValid = false`. -/
theorem c5_counterexample_infinity_accepted :
    (validateClusteringParams
      { minClusterSize := some (.fin 10), clusterSelectionEpsilon := some .posInf }
      .advanced).isValid = true ∧
    (validateClusteringParams
      { minClusterSize := some (.fin 10), clusterSelectionEpsilon := some .posInf }
      .advanced).errors = [] := by
  decide

/-- Claim C5, amended: a non-finite value on a numeric field of the active
field-set yields `isValid = false` with an error on that field — NaN through
the type check, Infinity and -Infinity through the accumulating `.int()` or
range checks (`minClusterSize` and `minSamples` in every mode, `alpha` from
`advanced` up, `leafSize` and `coreDistNJobs` in `super-advanced`; for
`clusterSelectionEpsilon` this holds for NaN and -Infinity) — with a single
exception: `clusterSelectionEpsilon = +Infinity` passes every check (min 0
satisfied, no max, no integer check), so
`{minClusterSize: 10, clusterSelectionEpsilon: Infinity}` in `advanced` mode
returns `isValid = true` with an empty error map. -/
theorem c5_amended_nonfinite_rejected (p : Params) :
    (∀ v : JsNum, v = .nan ∨ v = .posInf ∨ v = .negInf →
      (p.minClusterSize = some v → ∀ m : Mode,
        hasFieldError (validateClusteringParams p m) "minClusterSize" = true ∧
        (validateClusteringParams p m).isValid = false) ∧
      (p.minSamples = some v → ∀ m : Mode,
        hasFieldError (validateClusteringParams p m) "minSamples" = true ∧
        (validateClusteringParams p m).isValid = false) ∧
      (p.alpha = some v → ∀ m : Mode, m ≠ .basic →
        hasFieldError (validateClusteringParams p m) "alpha" = true ∧
        (validateClusteringParams p m).isValid = false) ∧
      (p.leafSize = some v →
        hasFieldError (validateClusteringParams p .superAdvanced) "leafSize" = true ∧
        (validateClusteringParams p .superAdvanced).isValid = false) ∧
      (p.coreDistNJobs = some v →
        hasFieldError (validateClusteringParams p .superAdvanced) "coreDistNJobs" = true ∧
        (validateClusteringParams p .superAdvanced).isValid = false)) ∧
    (∀ v : JsNum, v = .nan ∨ v = .negInf →
      p.clusterSelectionEpsilon = some v → ∀ m : Mode, m ≠ .basic →
        hasFieldError (validateClusteringParams p m) "clusterSelectionEpsilon" = true ∧
        (validateClusteringParams p m).isValid = false) ∧
    (p.clusterSelectionEpsilon = some .posInf →
      clusterSelectionEpsilonErrors p.clusterSelectionEpsilon = []) ∧
    (validateClusteringParams
      { minClusterSize := some (.fin 10), clusterSelectionEpsilon := some .posInf }
      .advanced).isValid = true ∧
    (validateClusteringParams
      { minClusterSize := some (.fin 10), clusterSelectionEpsilon := some .posInf }
      .advanced).errors = [] := by
  refine ⟨?_, ?_, ?_, by decide, by decide⟩
  · intro v hv
    refine ⟨?_, ?_, ?_, ?_, ?_⟩
    · intro h m
      rcases hv with rfl | rfl | rfl
      · have hmem : ("minClusterSize", ["El tamaño mínimo de cluster debe ser un número"]) ∈
            schemaFieldErrors m p := by
          cases m <;>
            simp [schemaFieldErrors, superAdvancedFieldErrors, advancedFieldErrors,
              basicFieldErrors, minClusterSizeErrors, zodNumber, h]
        exact invalid_of_error_entry (error_entry_mem hmem (by simp))
      · have hmem : ("minClusterSize",
            ["El tamaño mínimo de cluster debe ser un número entero",
             "El tamaño mínimo de cluster no puede exceder 1000"]) ∈
            schemaFieldErrors m p := by
          cases m <;>
            simp [schemaFieldErrors, superAdvancedFieldErrors, advancedFieldErrors,
              basicFieldErrors, minClusterSizeErrors, zodNumber, JsNum.isInteger,
              JsNum.lt, JsNum.gt, h]
        exact invalid_of_error_entry (error_entry_mem hmem (by simp))
      · have hmem : ("minClusterSize",
            ["El tamaño mínimo de cluster debe ser un número entero",
             "El tamaño mínimo de cluster debe ser al menos 2"]) ∈
            schemaFieldErrors m p := by
          cases m <;>
            simp [schemaFieldErrors, superAdvancedFieldErrors, advancedFieldErrors,
              basicFieldErrors, minClusterSizeErrors, zodNumber, JsNum.isInteger,
              JsNum.lt, JsNum.gt, h]
        exact invalid_of_error_entry (error_entry_mem hmem (by simp))
    · intro h m
      rcases hv with rfl | rfl | rfl
      · have hmem : ("minSamples", ["El número mínimo de muestras debe ser un número"]) ∈
            schemaFieldErrors m p := by
          cases m <;>
            simp [schemaFieldErrors, superAdvancedFieldErrors, advancedFieldErrors,
              basicFieldErrors, minSamplesErrors, zodNumber, h]
        exact invalid_of_error_entry (error_entry_mem hmem (by simp))
      · have hmem : ("minSamples",
            ["El número mínimo de muestras debe ser un número entero",
             "El número mínimo de muestras no puede exceder 100"]) ∈
            schemaFieldErrors m p := by
          cases m <;>
            simp [schemaFieldErrors, superAdvancedFieldErrors, advancedFieldErrors,
              basicFieldErrors, minSamplesErrors, zodNumber, JsNum.isInteger,
              JsNum.lt, JsNum.gt, h]
        exact invalid_of_error_entry (error_entry_mem hmem (by simp))
      · have hmem : ("minSamples",
            ["El número mínimo de muestras debe ser un número entero",
             "El número mínimo de muestras debe ser al menos 1"]) ∈
            schemaFieldErrors m p := by
          cases m <;>
            simp [schemaFieldErrors, superAdvancedFieldErrors, advancedFieldErrors,
              basicFieldErrors, minSamplesErrors, zodNumber, JsNum.isInteger,
              JsNum.lt, JsNum.gt, h]
        exact invalid_of_error_entry (error_entry_mem hmem (by simp))
    · intro h m hm
      have hmsg : ∃ msgs, msgs.isEmpty = false ∧ alphaErrors (some v) = msgs := by
        rcases hv with rfl | rfl | rfl
        · exact ⟨["Alpha debe ser un número"], by simp, rfl⟩
        · exact ⟨["Alpha no puede exceder 1.0"], by simp, rfl⟩
        · exact ⟨["Alpha debe ser mayor o igual a 0.0"], by simp, rfl⟩
      obtain ⟨msgs, hne, hmsgs⟩ := hmsg
      have hmem : ("alpha", msgs) ∈ schemaFieldErrors m p := by
        rw [← hmsgs, ← h]
        cases m with
        | basic => exact absurd rfl hm
        | advanced =>
            simp [schemaFieldErrors, advancedFieldErrors, basicFieldErrors]
        | superAdvanced =>
            simp [schemaFieldErrors, superAdvancedFieldErrors, advancedFieldErrors,
              basicFieldErrors]
      exact invalid_of_error_entry (error_entry_mem hmem hne)
    · intro h
      have hmsg : ∃ msgs, msgs.isEmpty = false ∧ leafSizeErrors (some v) = msgs := by
        rcases hv with rfl | rfl | rfl
        · exact ⟨["El tamaño de hoja debe ser un número"], by simp, rfl⟩
        · exact ⟨["El tamaño de hoja debe ser un número entero"], by simp, rfl⟩
        · exact ⟨["El tamaño de hoja debe ser un número entero",
            "El tamaño de hoja debe ser al menos 1"], by simp, rfl⟩
      obtain ⟨msgs, hne, hmsgs⟩ := hmsg
      have hmem : ("leafSize", msgs) ∈ schemaFieldErrors .superAdvanced p := by
        rw [← hmsgs, ← h]
        simp [schemaFieldErrors, superAdvancedFieldErrors, advancedFieldErrors,
          basicFieldErrors]
      exact invalid_of_error_entry (error_entry_mem hmem hne)
    · intro h
      have hmsg : ∃ msgs, msgs.isEmpty = false ∧ coreDistNJobsErrors (some v) = msgs := by
        rcases hv with rfl | rfl | rfl
        · exact ⟨["coreDistNJobs debe ser un número"], by simp, rfl⟩
        · exact ⟨["coreDistNJobs debe ser un número entero"], by simp, rfl⟩
        · exact ⟨["coreDistNJobs debe ser un número entero",
            "coreDistNJobs debe ser al menos 1"], by simp, rfl⟩
      obtain ⟨msgs, hne, hmsgs⟩ := hmsg
      have hmem : ("coreDistNJobs", msgs) ∈ schemaFieldErrors .superAdvanced p := by
        rw [← hmsgs, ← h]
        simp [schemaFieldErrors, superAdvancedFieldErrors, advancedFieldErrors,
          basicFieldErrors]
      exact invalid_of_error_entry (error_entry_mem hmem hne)
  · intro v hv h m hm
    have hmsg : ∃ msgs, msgs.isEmpty = false ∧
        clusterSelectionEpsilonErrors (some v) = msgs := by
      rcases hv with rfl | rfl
      · exact ⟨["Epsilon de selección de cluster debe ser un número"], by simp, rfl⟩
      · exact ⟨["Epsilon de selección de cluster debe ser mayor o igual a 0.0"],
          by simp, rfl⟩
    obtain ⟨msgs, hne, hmsgs⟩ := hmsg
    have hmem : ("clusterSelectionEpsilon", msgs) ∈ schemaFieldErrors m p := by
      rw [← hmsgs, ← h]
      cases m with
      | basic => exact absurd rfl hm
      | advanced =>
          simp [schemaFieldErrors, advancedFieldErrors, basicFieldErrors]
      | superAdvanced =>
          simp [schemaFieldErrors, superAdvancedFieldErrors, advancedFieldErrors,
            basicFieldErrors]
    exact invalid_of_error_entry (error_entry_mem hmem hne)
  · intro h
    rw [h]
    rfl

/-- Concrete instantiation of `c5_amended_nonfinite_rejected`: `+Infinity`
on every integer-checked or bounded field of one object (all rejected), NaN
and `-Infinity` on `clusterSelectionEpsilon` of two further objects
(rejected), and the `+Infinity` exception on `clusterSelectionEpsilon`
(no error produced for the field). -/
theorem c5_amended_nonfinite_rejected_witness :
    hasFieldError (validateClusteringParams
      { minClusterSize := some .posInf, minSamples := some .posInf,
        alpha := some .posInf, leafSize := some .posInf,
        coreDistNJobs := some .posInf } .basic) "minClusterSize" = true ∧
    hasFieldError (validateClusteringParams
      { minClusterSize := some .posInf, minSamples := some .posInf,
        alpha := some .posInf, leafSize := some .posInf,
        coreDistNJobs := some .posInf } .basic) "minSamples" = true ∧
    hasFieldError (validateClusteringParams
      { minClusterSize := some .posInf, minSamples := some .posInf,
        alpha := some .posInf, leafSize := some .posInf,
        coreDistNJobs := some .posInf } .advanced) "alpha" = true ∧
    hasFieldError (validateClusteringParams
      { minClusterSize := some .posInf, minSamples := some .posInf,
        alpha := some .posInf, leafSize := some .posInf,
        coreDistNJobs := some .posInf } .superAdvanced) "leafSize" = true ∧
    hasFieldError (validateClusteringParams
      { minClusterSize := some .posInf, minSamples := some .posInf,
        alpha := some .posInf, leafSize := some .posInf,
        coreDistNJobs := some .posInf } .superAdvanced) "coreDistNJobs" = true ∧
    hasFieldError (validateClusteringParams
      { clusterSelectionEpsilon := some .nan } .advanced)
      "clusterSelectionEpsilon" = true ∧
    hasFieldError (validateClusteringParams
      { clusterSelectionEpsilon := some .negInf } .advanced)
      "clusterSelectionEpsilon" = true ∧
    clusterSelectionEpsilonErrors (some .posInf) = [] := by
  have h1 := c5_amended_nonfinite_rejected
    { minClusterSize := some .posInf, minSamples := some .posInf,
      alpha := some .posInf, leafSize := some .posInf,
      coreDistNJobs := some .posInf }
  have h2 := c5_amended_nonfinite_rejected { clusterSelectionEpsilon := some .nan }
  have h3 := c5_amended_nonfinite_rejected { clusterSelectionEpsilon := some .negInf }
  have h4 := c5_amended_nonfinite_rejected { clusterSelectionEpsilon := some .posInf }
  exact ⟨((h1.1 .posInf (Or.inr (Or.inl rfl))).1 rfl .basic).1,
    ((h1.1 .posInf (Or.inr (Or.inl rfl))).2.1 rfl .basic).1,
    ((h1.1 .posInf (Or.inr (Or.inl rfl))).2.2.1 rfl .advanced (by decide)).1,
    ((h1.1 .posInf (Or.inr (Or.inl rfl))).2.2.2.1 rfl).1,
    ((h1.1 .posInf (Or.inr (Or.inl rfl))).2.2.2.2 rfl).1,
    (h2.2.1 .nan (Or.inl rfl) rfl .advanced (by decide)).1,
    (h3.2.1 .negInf (Or.inr rfl) rfl .advanced (by decide)).1,
    h4.2.2.1 rfl⟩

/-- Claim C6, counterexample: `minClusterSize = 1.5` in `basic` mode yields a
per-field list with *two* messages — the integer-check error followed by the
min-range error — not only a type error: Zod's check chain accumulates and
the `.int()` failure does not suppress the range checks. -/
theorem c6_counterexample_double_report :
    (validateClusteringParams { minClusterSize := some (.fin (mkRat 3 2)) } .basic).errors =
      [("minClusterSize",
        ["El tamaño mínimo de cluster debe ser un número entero",
         "El tamaño mínimo de cluster debe ser al menos 2"])] ∧
    (["El tamaño mínimo de cluster debe ser un número entero",
      "El tamaño mínimo de cluster debe ser al menos 2"] : List String) ≠
      ["El tamaño mínimo de cluster debe ser un número entero"] := by
  constructor
  · decide
  · decide

/-- Claim C6, amended: only a value failing the *number* type check (NaN, or
a non-number) suppresses the remaining checks and reports the single
invalid-type message; a non-integer number accumulates the integer-check
error with every violated range check — a non-integer inside `[2, 1000]`
reports the integer error alone, while `1.5` (below the minimum) reports the
integer error followed by the min-range error. -/
theorem c6_amended_type_error_suppression (p : Params) :
    (p.minClusterSize = some .nan →
      ("minClusterSize", ["El tamaño mínimo de cluster debe ser un número"]) ∈
        (validateClusteringParams p .basic).errors) ∧
    (∀ q : ℚ, p.minClusterSize = some (.fin q) → q.den ≠ 1 → 2 ≤ q → q ≤ 1000 →
      ("minClusterSize", ["El tamaño mínimo de cluster debe ser un número entero"]) ∈
        (validateClusteringParams p .basic).errors) ∧
    (∀ q : ℚ, p.minClusterSize = some (.fin q) → q.den ≠ 1 → q < 2 →
      ("minClusterSize",
        ["El tamaño mínimo de cluster debe ser un número entero",
         "El tamaño mínimo de cluster debe ser al menos 2"]) ∈
        (validateClusteringParams p .basic).errors) := by
  refine ⟨?_, ?_, ?_⟩
  · intro h
    have hmem : ("minClusterSize", ["El tamaño mínimo de cluster debe ser un número"]) ∈
        schemaFieldErrors .basic p := by
      simp [schemaFieldErrors, basicFieldErrors, minClusterSizeErrors, zodNumber, h]
    exact error_entry_mem hmem (by simp)
  · intro q h hden h2 h1000
    have hlt : ¬ q < 2 := not_lt.mpr h2
    have hgt : ¬ 1000 < q := not_lt.mpr h1000
    have hmem : ("minClusterSize", ["El tamaño mínimo de cluster debe ser un número entero"]) ∈
        schemaFieldErrors .basic p := by
      simp [schemaFieldErrors, basicFieldErrors, minClusterSizeErrors, zodNumber,
        JsNum.isInteger, JsNum.lt, JsNum.gt, h, hden, hlt, hgt]
    exact error_entry_mem hmem (by simp)
  · intro q h hden hlt
    have hgt : ¬ 1000 < q := not_lt.mpr (le_of_lt (lt_trans hlt (by norm_num)))
    have hmem : ("minClusterSize",
        ["El tamaño mínimo de cluster debe ser un número entero",
         "El tamaño mínimo de cluster debe ser al menos 2"]) ∈
        schemaFieldErrors .basic p := by
      simp [schemaFieldErrors, basicFieldErrors, minClusterSizeErrors, zodNumber,
        JsNum.isInteger, JsNum.lt, JsNum.gt, h, hden, hlt, hgt]
    exact error_entry_mem hmem (by simp)

/-- Concrete instantiation of `c6_amended_type_error_suppression`: the
accumulating branch at `minClusterSize = 1.5` and the suppressed branch at
`minClusterSize = NaN` (on a second object). -/
theorem c6_amended_type_error_suppression_witness :
    ("minClusterSize",
      ["El tamaño mínimo de cluster debe ser un número entero",
       "El tamaño mínimo de cluster debe ser al menos 2"]) ∈
      (validateClusteringParams { minClusterSize := some (.fin (mkRat 3 2)) } .basic).errors ∧
    ("minClusterSize", ["El tamaño mínimo de cluster debe ser un número"]) ∈
      (validateClusteringParams { minClusterSize := some .nan } .basic).errors :=
  ⟨(c6_amended_type_error_suppression { minClusterSize := some (.fin (mkRat 3 2)) }).2.2
      (mkRat 3 2) rfl (by decide) (by decide),
   (c6_amended_type_error_suppression { minClusterSize := some .nan }).1 rfl⟩

/-- Claim C9, counterexample: `minClusterSize = 0` is defined and below 5,
yet no warning is produced in any mode — the guard `params.minClusterSize &&`
uses JS truthiness and `0` is falsy. -/
theorem c9_counterexample_zero_no_warning :
    (validateClusteringParams { minClusterSize := some (.fin 0) } .basic).warnings = [] ∧
    (validateClusteringParams { minClusterSize := some (.fin 0) } .advanced).warnings = [] ∧
    (validateClusteringParams { minClusterSize := some (.fin 0) } .superAdvanced).warnings = [] ∧
    (0 : ℚ) < 5 := by
  refine ⟨rfl, rfl, rfl, by norm_num⟩

/-- Claim C9, amended: the very-small-minClusterSize warning appears, in
every mode, for every *truthy* defined value below 5 — every nonzero finite
value `q < 5` (negative values included) and `-Infinity` — but not for the
falsy values `0` and `NaN`. -/
theorem c9_amended_truthy_small_warning (p : Params) (m : Mode) :
    (∀ q : ℚ, p.minClusterSize = some (.fin q) → q ≠ 0 → q < 5 →
      "Un minClusterSize muy pequeño (< 5) puede generar clusters poco significativos." ∈
        (validateClusteringParams p m).warnings) ∧
    (p.minClusterSize = some .negInf →
      "Un minClusterSize muy pequeño (< 5) puede generar clusters poco significativos." ∈
        (validateClusteringParams p m).warnings) := by
  constructor
  · intro q h hq0 hq5
    simp [validateClusteringParams, truthyN, JsNum.truthy, ltC, gtC, JsNum.lt,
      JsNum.gt, h, hq0, hq5]
  · intro h
    simp [validateClusteringParams, truthyN, JsNum.truthy, ltC, gtC, JsNum.lt,
      JsNum.gt, h]

/-- Concrete instantiation of `c9_amended_truthy_small_warning` at
`minClusterSize = -3` and at `minClusterSize = -Infinity`. -/
theorem c9_amended_truthy_small_warning_witness :
    "Un minClusterSize muy pequeño (< 5) puede generar clusters poco significativos." ∈
      (validateClusteringParams { minClusterSize := some (.fin (-3)) } .basic).warnings ∧
    "Un minClusterSize muy pequeño (< 5) puede generar clusters poco significativos." ∈
      (validateClusteringParams { minClusterSize := some .negInf } .advanced).warnings :=
  ⟨(c9_amended_truthy_small_warning { minClusterSize := some (.fin (-3)) } .basic).1
      (-3) rfl (by norm_num) (by norm_num),
   (c9_amended_truthy_small_warning { minClusterSize := some .negInf } .advanced).2 rfl⟩

/-- Claim C10, counterexample: a truthy non-object `params` (the non-empty
string `"x"`) together with an invalid `mode` (`"bad"`) yields HTTP 400 with
`VALIDATION_ERROR` and never reaches `validateClusteringParams` — refuting
the claim that every truthy `params` value yields a 200 response. -/
theorem c10_counterexample_truthy_params_400 :
    JsVal.truthy (.str "x") = true ∧
    postValidate (.str "x") (.str "bad") =
      { status := 400, errorCode := some "VALIDATION_ERROR", data := none,
        invoked := false } := by
  exact ⟨rfl, rfl⟩

/-- Claim C10, amended: a falsy `params` (absent, null, 0, false, empty
string, NaN) yields HTTP 400 with `VALIDATION_ERROR` without invoking
`validateClusteringParams`; a truthy `params` (objects and non-objects alike)
yields 200 and reaches validation provided the `mode` field is absent or one
of the three literals — with an invalid `mode` it yields 400 instead. -/
theorem c10_amended_falsy_params_400 (pv mv : JsVal) :
    (pv.truthy = false →
      postValidate pv mv =
        { status := 400, errorCode := some "VALIDATION_ERROR", data := none,
          invoked := false }) ∧
    (pv.truthy = true →
      ∀ m : Mode, decodeMode (if mv == .undef then .str "basic" else mv) = some m →
        (postValidate pv mv).status = 200 ∧ (postValidate pv mv).invoked = true) := by
  constructor
  · intro h
    simp [postValidate, h]
  · intro h m hm
    simp only [beq_iff_eq] at hm
    simp [postValidate, h, hm]

/-- Concrete instantiation of `c10_amended_falsy_params_400`: the falsy
branch at `params = 0` and the truthy branch at `params = "x"` with an absent
`mode`. -/
theorem c10_amended_falsy_params_400_witness :
    postValidate (.num (.fin 0)) (.str "basic") =
      { status := 400, errorCode := some "VALIDATION_ERROR", data := none,
        invoked := false } ∧
    (postValidate (.str "x") .undef).status = 200 ∧
    (postValidate (.str "x") .undef).invoked = true :=
  ⟨(c10_amended_falsy_params_400 (.num (.fin 0)) (.str "basic")).1 rfl,
   (c10_amended_falsy_params_400 (.str "x") .undef).2 rfl .basic rfl⟩

end HdbscanWeb
